import Mathlib

/-!
Verification development for the `wdf-sallenkey` repository: a shallow
embedding of the WDF filter hierarchy (`src/plugins/WDFilters`), the filter
factory (`src/plugins/WDFilters/src/WDFilter.cpp`) and the diode clipper
(`src/plugins/DiodeClipper/include/DiodeClipper/WDFDiodeClipper.h`).
Doubles are modelled as exact reals; `juce::MathConstants<double>::pi` is
modelled as `Real.pi`.
-/

/-- Model of `juce::jlimit(lowerLimit, upperLimit, value)`:
`value < lower ? lower : upper < value ? upper : value`. -/
noncomputable def jlimit (lo hi v : ℝ) : ℝ :=
  if v < lo then lo else if hi < v then hi else v

/-- Model of `juce::jmax(a, b)`: `a < b ? b : a`. -/
noncomputable def jmax (a b : ℝ) : ℝ :=
  if a < b then b else a

/-! ## Filter factory (`src/plugins/WDFilters/src/WDFilter.cpp`)

`WDFilter::Type` and `WDFilter::Order` are C++ scoped enums with underlying
type `int` (`Type ∈ {LowPass = 0, HighPass = 1, BandPass = 2}`,
`Order ∈ {First = 0, Second = 1}`, per
`src/unnamed/part_006` = `WDFilters/WDFilter.h`).  We model enum values as
`Int` so that out-of-range values (casts of arbitrary ints, the
`default:` cases of the switch) are expressible. -/

def TypeLowPass : Int := 0
def TypeHighPass : Int := 1
def TypeBandPass : Int := 2
def OrderFirst : Int := 0
def OrderSecond : Int := 1

/-- The six concrete filter classes that `WDFilter::create` can return. -/
inductive FilterKind
  | lowPass1     -- WDFRCLowPass
  | lowPass2     -- WDFRC2LowPassCascade
  | highPass1    -- WDFRCHighPass
  | highPass2    -- WDFRC2HighPassCascade
  | bandPass1    -- WDFRCBandPass1st
  | bandPass2    -- WDFRCBandPass2nd
  deriving DecidableEq, Repr

/-- Result of `WDFilter::create`: the concrete class instantiated, plus
whether a `jassertfalse` was hit on the way (the `default:` branches). -/
structure CreateResult where
  kind : FilterKind
  assertionFired : Bool
  deriving DecidableEq, Repr

/-- `WDFilter::create(type, order)`, `src/plugins/WDFilters/src/WDFilter.cpp`
lines 7-49: nested switch on `type` then `order`; each `default:` executes
`jassertfalse` and returns a fallback instance. -/
def WDFilter.create (type order : Int) : CreateResult :=
  if type = TypeLowPass then
    if order = OrderFirst then ⟨.lowPass1, false⟩
    else if order = OrderSecond then ⟨.lowPass2, false⟩
    else ⟨.lowPass1, true⟩
  else if type = TypeHighPass then
    if order = OrderFirst then ⟨.highPass1, false⟩
    else if order = OrderSecond then ⟨.highPass2, false⟩
    else ⟨.highPass1, true⟩
  else if type = TypeBandPass then
    if order = OrderFirst then ⟨.bandPass1, false⟩
    else if order = OrderSecond then ⟨.bandPass2, false⟩
    else ⟨.bandPass1, true⟩
  else ⟨.lowPass1, true⟩

/-- `getType()` of each concrete class (as the `Type` enum code):
`WDFRCLowPass`/`WDFRC2LowPassCascade` return `Type::LowPass`,
`WDFRCHighPass`/`WDFRC2HighPassCascade` return `Type::HighPass`,
`WDFRCBandPass1st`/`WDFRCBandPass2nd` return `Type::BandPass`. -/
def FilterKind.getTypeCode : FilterKind → Int
  | .lowPass1 => TypeLowPass
  | .lowPass2 => TypeLowPass
  | .highPass1 => TypeHighPass
  | .highPass2 => TypeHighPass
  | .bandPass1 => TypeBandPass
  | .bandPass2 => TypeBandPass

/-- `getOrder()` of each concrete class (as the `Order` enum code).
Note `WDFRCBandPass1st::getOrder` returns `Order::Second`
(`BandPassFilter.h` line 52). -/
def FilterKind.getOrderCode : FilterKind → Int
  | .lowPass1 => OrderFirst
  | .lowPass2 => OrderSecond
  | .highPass1 => OrderFirst
  | .highPass2 => OrderSecond
  | .bandPass1 => OrderSecond
  | .bandPass2 => OrderSecond

/-! ## First-order filters

`WDFRCLowPass` (`src/plugin/include/WDFilters/LowPassFilter.h`, identical
class in `src/plugins/WDFilters/include/WDFilters/LowPassFilter.h`) and
`WDFRCHighPass` (`src/unnamed/part_002` = `WDFilters/HighPassFilter.h`).

The WDF elements come from the external `chowdsp_wdf` library, which is not
part of this repository; their state is modelled from the spec:
the capacitor carries one piece of discretization state `z` and a
bilinear-transform port resistance `1/(2·Fs·C)` fixed at `prepare` time, the
resistor a mutable resistance, the voltage source a settable voltage
(spec sections 3 and 4.1). -/

/-- State of `WDFRCLowPass`: sample rate and cutoff (the two `double`
members), the series resistor resistance `r1R`, and the capacitor's
port resistance `c1R` / discretization state `c1z`
(modelled from the spec: `chowdsp::wdft::CapacitorT` is external), and the
ideal voltage source's set voltage `vinV`. -/
structure WDFRCLowPass where
  sampleRate : ℝ
  cutoff : ℝ
  r1R : ℝ
  c1R : ℝ
  c1z : ℝ
  vinV : ℝ

/-- The fixed low-pass capacitance `C = 1.0e-6` F (1 µF). -/
noncomputable def WDFRCLowPass.Cval : ℝ := 1e-6

/-- `updateComponentValues()`: `R = 1/(2·π·cutoff·C)` with `C = 1e-6`. -/
noncomputable def WDFRCLowPass.Rof (fc : ℝ) : ℝ :=
  1 / (2 * Real.pi * fc * WDFRCLowPass.Cval)

/-- Constructor state: `r1(1.0e3)`, `c1(1.0e-6)`, default member
initializers `sampleRate{44100.0}`, `cutoff{1000.0}`; capacitor state and
source voltage quiescent (0). -/
noncomputable def WDFRCLowPass.init : WDFRCLowPass :=
  { sampleRate := 44100, cutoff := 1000, r1R := 1000
    c1R := 1 / (2 * 48000 * WDFRCLowPass.Cval), c1z := 0, vinV := 0 }

/-- `WDFRCLowPass::prepare(newSampleRate)`: stores the sample rate, calls
`c1.prepare(sampleRate)` (modelled from the spec: fixes the bilinear port
resistance `1/(2·Fs·C)` and resets the discretization state), then
`updateComponentValues()`. -/
noncomputable def WDFRCLowPass.prepare (s : WDFRCLowPass) (newSampleRate : ℝ) :
    WDFRCLowPass :=
  { s with
    sampleRate := newSampleRate
    c1R := 1 / (2 * newSampleRate * WDFRCLowPass.Cval)
    c1z := 0
    r1R := WDFRCLowPass.Rof s.cutoff }

/-- `WDFRCLowPass::setCutoff(newFc)`:
`cutoff = juce::jlimit(20.0, sampleRate * 0.45, newFc)` then
`updateComponentValues()`. -/
noncomputable def WDFRCLowPass.setCutoff (s : WDFRCLowPass) (newFc : ℝ) :
    WDFRCLowPass :=
  let c := jlimit 20 (s.sampleRate * 0.45) newFc
  { s with cutoff := c, r1R := WDFRCLowPass.Rof c }

/-- `WDFRCLowPass::getCutoff()`. -/
def WDFRCLowPass.getCutoff (s : WDFRCLowPass) : ℝ := s.cutoff

/-- State of `WDFRCHighPass` (`src/unnamed/part_002`): series capacitor
(100 nF) into shunt resistor (initially 1.5 kΩ), same state layout as the
low-pass. -/
structure WDFRCHighPass where
  sampleRate : ℝ
  cutoff : ℝ
  r1R : ℝ
  c1R : ℝ
  c1z : ℝ
  vinV : ℝ

/-- The fixed high-pass capacitance `C = 1.0e-7` F (100 nF). -/
noncomputable def WDFRCHighPass.Cval : ℝ := 1e-7

/-- `updateComponentValues()`: `R = 1/(2·π·cutoff·C)` with `C = 1e-7`. -/
noncomputable def WDFRCHighPass.Rof (fc : ℝ) : ℝ :=
  1 / (2 * Real.pi * fc * WDFRCHighPass.Cval)

/-- Constructor state: `c1(1.0e-7)`, `r1(1.5e3)`, defaults
`sampleRate{44100.0}`, `cutoff{1000.0}`. -/
noncomputable def WDFRCHighPass.init : WDFRCHighPass :=
  { sampleRate := 44100, cutoff := 1000, r1R := 1500
    c1R := 1 / (2 * 48000 * WDFRCHighPass.Cval), c1z := 0, vinV := 0 }

/-- `WDFRCHighPass::prepare(newSampleRate)`. -/
noncomputable def WDFRCHighPass.prepare (s : WDFRCHighPass) (newSampleRate : ℝ) :
    WDFRCHighPass :=
  { s with
    sampleRate := newSampleRate
    c1R := 1 / (2 * newSampleRate * WDFRCHighPass.Cval)
    c1z := 0
    r1R := WDFRCHighPass.Rof s.cutoff }

/-- `WDFRCHighPass::setCutoff(newFc)`:
`cutoff = juce::jlimit(20.0, sampleRate * 0.45, newFc)` then
`updateComponentValues()`. -/
noncomputable def WDFRCHighPass.setCutoff (s : WDFRCHighPass) (newFc : ℝ) :
    WDFRCHighPass :=
  let c := jlimit 20 (s.sampleRate * 0.45) newFc
  { s with cutoff := c, r1R := WDFRCHighPass.Rof c }

/-- `WDFRCHighPass::getCutoff()`. -/
def WDFRCHighPass.getCutoff (s : WDFRCHighPass) : ℝ := s.cutoff

/-! ## Second-order cascades

`WDFRC2LowPassCascade` (`LowPassFilter.h` lines 71-99) and
`WDFRC2HighPassCascade` (`src/unnamed/part_002` lines 81-109). -/

/-- State of `WDFRC2LowPassCascade`: two first-order stages plus its own
`fs{44100.0}` and `cutoff{1000.0}`. -/
structure WDFRC2LowPassCascade where
  stage1 : WDFRCLowPass
  stage2 : WDFRCLowPass
  fs : ℝ
  cutoff : ℝ

/-- Default-constructed cascade. -/
noncomputable def WDFRC2LowPassCascade.init : WDFRC2LowPassCascade :=
  { stage1 := WDFRCLowPass.init, stage2 := WDFRCLowPass.init
    fs := 44100, cutoff := 1000 }

/-- `WDFRC2LowPassCascade::prepare(Fs)`: stores `fs`, prepares both stages. -/
noncomputable def WDFRC2LowPassCascade.prepare (s : WDFRC2LowPassCascade)
    (Fs : ℝ) : WDFRC2LowPassCascade :=
  { s with fs := Fs
           stage1 := s.stage1.prepare Fs
           stage2 := s.stage2.prepare Fs }

/-- `WDFRC2LowPassCascade::setCutoff(fc)`:
`cutoff = juce::jlimit(20.0, fs * 0.45, fc)`, same cutoff pushed to both
stages. -/
noncomputable def WDFRC2LowPassCascade.setCutoff (s : WDFRC2LowPassCascade)
    (fc : ℝ) : WDFRC2LowPassCascade :=
  let c := jlimit 20 (s.fs * 0.45) fc
  { s with cutoff := c
           stage1 := s.stage1.setCutoff c
           stage2 := s.stage2.setCutoff c }

/-- `WDFRC2LowPassCascade::getCutoff()`. -/
def WDFRC2LowPassCascade.getCutoff (s : WDFRC2LowPassCascade) : ℝ := s.cutoff

/-- The high-pass cascade's cutoff-correction factor `_k{1.553}`. -/
noncomputable def hpCascadeK : ℝ := 1.553

/-- State of `WDFRC2HighPassCascade`: two first-order high-pass stages plus
`fs{44100.0}` and `cutoff{1000.0}` (`_k` is a constant, `hpCascadeK`). -/
structure WDFRC2HighPassCascade where
  stage1 : WDFRCHighPass
  stage2 : WDFRCHighPass
  fs : ℝ
  cutoff : ℝ

/-- Default-constructed cascade. -/
noncomputable def WDFRC2HighPassCascade.init : WDFRC2HighPassCascade :=
  { stage1 := WDFRCHighPass.init, stage2 := WDFRCHighPass.init
    fs := 44100, cutoff := 1000 }

/-- `WDFRC2HighPassCascade::prepare(Fs)`. -/
noncomputable def WDFRC2HighPassCascade.prepare (s : WDFRC2HighPassCascade)
    (Fs : ℝ) : WDFRC2HighPassCascade :=
  { s with fs := Fs
           stage1 := s.stage1.prepare Fs
           stage2 := s.stage2.prepare Fs }

/-- `WDFRC2HighPassCascade::setCutoff(fc)`:
`cutoff = juce::jlimit(20.0, fs * 0.45, fc)`, then
`stage1.setCutoff(cutoff / _k)` and `stage2.setCutoff(cutoff / _k)`. -/
noncomputable def WDFRC2HighPassCascade.setCutoff (s : WDFRC2HighPassCascade)
    (fc : ℝ) : WDFRC2HighPassCascade :=
  let c := jlimit 20 (s.fs * 0.45) fc
  { s with cutoff := c
           stage1 := s.stage1.setCutoff (c / hpCascadeK)
           stage2 := s.stage2.setCutoff (c / hpCascadeK) }

/-- `WDFRC2HighPassCascade::getCutoff()`. -/
def WDFRC2HighPassCascade.getCutoff (s : WDFRC2HighPassCascade) : ℝ := s.cutoff

/-! ## Band-pass filters
(`src/plugins/WDFilters/include/WDFilters/BandPassFilter.h`). -/

/-- State of `WDFRCBandPass1st`: a first-order high-pass stage followed by a
first-order low-pass stage, plus `fs{44100.0}`, `cutoff{1000.0}`,
`bandwidthInOctaves{1.0}` and `applyAutoGain{true}`. -/
structure WDFRCBandPass1st where
  stage1 : WDFRCHighPass
  stage2 : WDFRCLowPass
  fs : ℝ
  cutoff : ℝ
  bandwidthInOctaves : ℝ
  applyAutoGain : Bool

/-- Default-constructed band-pass. -/
noncomputable def WDFRCBandPass1st.init : WDFRCBandPass1st :=
  { stage1 := WDFRCHighPass.init, stage2 := WDFRCLowPass.init
    fs := 44100, cutoff := 1000, bandwidthInOctaves := 1, applyAutoGain := true }

/-- `WDFRCBandPass1st::updateCutoffs()`:
`ratio = std::pow(2.0, bandwidthInOctaves / 2.0)`;
`hpCutoff = cutoff / ratio`, `lpCutoff = cutoff * ratio`;
each limited with `juce::jlimit(20.0, fs * 0.45, ·)` and pushed to the
stages. -/
noncomputable def WDFRCBandPass1st.updateCutoffs (s : WDFRCBandPass1st) :
    WDFRCBandPass1st :=
  let ratio := (2 : ℝ) ^ (s.bandwidthInOctaves / 2)
  let hpCutoff := jlimit 20 (s.fs * 0.45) (s.cutoff / ratio)
  let lpCutoff := jlimit 20 (s.fs * 0.45) (s.cutoff * ratio)
  { s with stage1 := s.stage1.setCutoff hpCutoff
           stage2 := s.stage2.setCutoff lpCutoff }

/-- `WDFRCBandPass1st::prepare(Fs)`: stores `fs`, prepares both stages, then
`updateCutoffs()`. -/
noncomputable def WDFRCBandPass1st.prepare (s : WDFRCBandPass1st) (Fs : ℝ) :
    WDFRCBandPass1st :=
  WDFRCBandPass1st.updateCutoffs
    { s with fs := Fs
             stage1 := s.stage1.prepare Fs
             stage2 := s.stage2.prepare Fs }

/-- `WDFRCBandPass1st::setCutoff(fc)`:
`cutoff = juce::jlimit(20.0, fs * 0.45, fc)`, then `updateCutoffs()`. -/
noncomputable def WDFRCBandPass1st.setCutoff (s : WDFRCBandPass1st) (fc : ℝ) :
    WDFRCBandPass1st :=
  WDFRCBandPass1st.updateCutoffs
    { s with cutoff := jlimit 20 (s.fs * 0.45) fc }

/-- `WDFRCBandPass1st::setBandwidth(octaves)`:
`bandwidthInOctaves = juce::jmax(0.1, octaves)`, then `updateCutoffs()`. -/
noncomputable def WDFRCBandPass1st.setBandwidth (s : WDFRCBandPass1st)
    (octaves : ℝ) : WDFRCBandPass1st :=
  WDFRCBandPass1st.updateCutoffs
    { s with bandwidthInOctaves := jmax 0.1 octaves }

/-- `WDFRCBandPass1st::getCutoff()`. -/
def WDFRCBandPass1st.getCutoff (s : WDFRCBandPass1st) : ℝ := s.cutoff

/-- State of `WDFRCBandPass2nd`: a second-order high-pass cascade followed by
a second-order low-pass cascade, same scalar members as the first-order
band-pass. -/
structure WDFRCBandPass2nd where
  stage1 : WDFRC2HighPassCascade
  stage2 : WDFRC2LowPassCascade
  fs : ℝ
  cutoff : ℝ
  bandwidthInOctaves : ℝ
  applyAutoGain : Bool

/-- Default-constructed second-order band-pass. -/
noncomputable def WDFRCBandPass2nd.init : WDFRCBandPass2nd :=
  { stage1 := WDFRC2HighPassCascade.init, stage2 := WDFRC2LowPassCascade.init
    fs := 44100, cutoff := 1000, bandwidthInOctaves := 1, applyAutoGain := true }

/-- `WDFRCBandPass2nd::updateCutoffs()` (same law as the first-order
band-pass, pushed into the cascades). -/
noncomputable def WDFRCBandPass2nd.updateCutoffs (s : WDFRCBandPass2nd) :
    WDFRCBandPass2nd :=
  let ratio := (2 : ℝ) ^ (s.bandwidthInOctaves / 2)
  let hpCutoff := jlimit 20 (s.fs * 0.45) (s.cutoff / ratio)
  let lpCutoff := jlimit 20 (s.fs * 0.45) (s.cutoff * ratio)
  { s with stage1 := s.stage1.setCutoff hpCutoff
           stage2 := s.stage2.setCutoff lpCutoff }

/-- `WDFRCBandPass2nd::prepare(Fs)`. -/
noncomputable def WDFRCBandPass2nd.prepare (s : WDFRCBandPass2nd) (Fs : ℝ) :
    WDFRCBandPass2nd :=
  WDFRCBandPass2nd.updateCutoffs
    { s with fs := Fs
             stage1 := s.stage1.prepare Fs
             stage2 := s.stage2.prepare Fs }

/-- `WDFRCBandPass2nd::setCutoff(fc)`. -/
noncomputable def WDFRCBandPass2nd.setCutoff (s : WDFRCBandPass2nd) (fc : ℝ) :
    WDFRCBandPass2nd :=
  WDFRCBandPass2nd.updateCutoffs
    { s with cutoff := jlimit 20 (s.fs * 0.45) fc }

/-- `WDFRCBandPass2nd::setBandwidth(octaves)`. -/
noncomputable def WDFRCBandPass2nd.setBandwidth (s : WDFRCBandPass2nd)
    (octaves : ℝ) : WDFRCBandPass2nd :=
  WDFRCBandPass2nd.updateCutoffs
    { s with bandwidthInOctaves := jmax 0.1 octaves }

/-- `WDFRCBandPass2nd::getCutoff()`. -/
def WDFRCBandPass2nd.getCutoff (s : WDFRCBandPass2nd) : ℝ := s.cutoff

/-! ## Parameter smoothing

`juce::SmoothedValue` is external to the repository.  Modelled from the
spec: parameter changes "either snap immediately (`forceNow=true`) or ramp
smoothly over a fixed short window (10 ms)", with "one-pole-per-sample
linear/multiplicative smoothing, evaluated once per sample only while a ramp
is in progress" (spec section 4.4).  The ramp bookkeeping is a current
value, a target value, a per-ramp step count fixed by `reset(fs, seconds)`,
and a countdown of remaining steps; a ramp is in progress while the
countdown is positive. -/

/-- Smoother state: current value, target value, remaining-step countdown,
steps per full ramp (fixed by `reset`), and the per-step increment/factor. -/
structure SmoothedValue where
  current : ℝ
  target : ℝ
  countdown : ℤ
  stepsToTarget : ℤ
  step : ℝ

/-- Default-constructed smoother (value 0, no ramp configured). -/
def SmoothedValue.dflt : SmoothedValue :=
  { current := 0, target := 0, countdown := 0, stepsToTarget := 0, step := 0 }

/-- `reset(sampleRate, rampLengthInSeconds)`: fixes the ramp length in
samples (`⌊ramp·fs⌋`), stops any ramp in progress and snaps the current
value to the target. -/
noncomputable def SmoothedValue.reset (s : SmoothedValue) (fs ramp : ℝ) :
    SmoothedValue :=
  { s with stepsToTarget := ⌊ramp * fs⌋, countdown := 0, current := s.target }

/-- `setCurrentAndTargetValue(v)`: snaps both values to `v`, no ramp. -/
def SmoothedValue.setCurrentAndTargetValue (s : SmoothedValue) (v : ℝ) :
    SmoothedValue :=
  { s with current := v, target := v, countdown := 0 }

/-- `isSmoothing()`: a ramp is in progress. -/
def SmoothedValue.isSmoothing (s : SmoothedValue) : Prop := 0 < s.countdown

instance (s : SmoothedValue) : Decidable s.isSmoothing :=
  inferInstanceAs (Decidable (0 < s.countdown))

/-- `setTargetValue(v)` for the linear smoother: no-op when the target is
unchanged; snaps when no ramp length is configured; otherwise starts a
full-length ramp toward `v` with step `(v - current) / stepsToTarget`,
leaving the current value untouched. -/
noncomputable def SmoothedValue.setTargetLinear (s : SmoothedValue) (v : ℝ) :
    SmoothedValue :=
  if v = s.target then s
  else if s.stepsToTarget ≤ 0 then s.setCurrentAndTargetValue v
  else { s with target := v
                countdown := s.stepsToTarget
                step := (v - s.current) / (s.stepsToTarget : ℝ) }

/-- `setTargetValue(v)` for the multiplicative smoother: as the linear one,
but the step is the per-sample factor
`exp((log |v| - log |current|) / stepsToTarget)`. -/
noncomputable def SmoothedValue.setTargetMultiplicative (s : SmoothedValue)
    (v : ℝ) : SmoothedValue :=
  if v = s.target then s
  else if s.stepsToTarget ≤ 0 then s.setCurrentAndTargetValue v
  else { s with target := v
                countdown := s.stepsToTarget
                step := Real.exp ((Real.log |v| - Real.log |s.current|) /
                                  (s.stepsToTarget : ℝ)) }

/-- `getNextValue()` for the linear smoother: returns the target when not
ramping; otherwise decrements the countdown and advances the current value
one additive step (landing exactly on the target at the last step).
Returns the produced value together with the new state. -/
noncomputable def SmoothedValue.getNextLinear (s : SmoothedValue) :
    ℝ × SmoothedValue :=
  if ¬ s.isSmoothing then (s.target, s)
  else
    let cd := s.countdown - 1
    let c := if 0 < cd then s.current + s.step else s.target
    (c, { s with countdown := cd, current := c })

/-- `getNextValue()` for the multiplicative smoother: as the linear one but
with a per-sample factor. -/
noncomputable def SmoothedValue.getNextMultiplicative (s : SmoothedValue) :
    ℝ × SmoothedValue :=
  if ¬ s.isSmoothing then (s.target, s)
  else
    let cd := s.countdown - 1
    let c := if 0 < cd then s.current * s.step else s.target
    (c, { s with countdown := cd, current := c })

/-! ## Diode clipper
(`src/plugins/DiodeClipper/include/DiodeClipper/WDFDiodeClipper.h`).

The WDF tree is a `ResistiveVoltageSourceT` in parallel with a
`CapacitorT`, rooted by a `DiodePairT`.  The chowdsp elements are external;
their wave behaviour is modelled from the spec (sections 3, 4.1-4.3):
each port carries a most-recent incident wave `a` and reflected wave `b`;
the capacitor reflects its stored discretization state and absorbs the
incident wave into it; the resistive voltage source reflects its set
voltage; the parallel adaptor combines the children by the conductance
rule and distributes an incident wave so that all three ports see the same
port voltage `(a+b)/2`; the diode pair computes its reflected wave as a
closed-form nonlinear function of the incident wave, the adapted port
resistance and the diode parameters `(Is, Vt, nDiodes)` — the spec leaves
the exact closed form open (section 9), so it enters as a parameter
`diodeWave` below. -/

/-- `Cval = 47.0e-9f` (47 nF). -/
noncomputable def ClipperCval : ℝ := 47e-9

/-- `Vt = 0.02585f` (thermal voltage). -/
noncomputable def ClipperVt : ℝ := 0.02585

/-- `R_from_fc(fc) = 1 / (2π · fc · Cval)`. -/
noncomputable def R_from_fc (fc : ℝ) : ℝ :=
  1 / (2 * Real.pi * fc * ClipperCval)

/-- State of `WDFDiodeClipperJUCE`: sample rate, the WDF elements' state
(resistive source resistance/voltage/incident wave; capacitor port
resistance, discretization state and last `a`/`b` waves; diode parameters
and last `a`/`b` waves), the two smoothers and the staged saturation
current `IsCurrent`. -/
structure WDFDiodeClipperJUCE where
  fs : ℝ
  VsR : ℝ
  VsV : ℝ
  VsA : ℝ
  C1R : ℝ
  C1z : ℝ
  C1a : ℝ
  C1b : ℝ
  diodeIsP : ℝ
  diodeVtP : ℝ
  diodeN : ℝ
  diodeA : ℝ
  diodeB : ℝ
  cutoffSmooth : SmoothedValue
  nDiodesSmooth : SmoothedValue
  IsCurrent : ℝ

/-- Default-constructed clipper: `fs{48000.0}`, `Vs{R_from_fc(1000.0f)}`,
`C1{Cval}`, `diodes{par, 2.52e-9f}` (two diodes by default),
`IsCurrent{2.52e-9f}`, smoothers default-constructed. -/
noncomputable def WDFDiodeClipperJUCE.init : WDFDiodeClipperJUCE :=
  { fs := 48000
    VsR := R_from_fc 1000, VsV := 0, VsA := 0
    C1R := 1 / (2 * 48000 * ClipperCval), C1z := 0, C1a := 0, C1b := 0
    diodeIsP := 2.52e-9, diodeVtP := 0.02585, diodeN := 2
    diodeA := 0, diodeB := 0
    cutoffSmooth := SmoothedValue.dflt, nDiodesSmooth := SmoothedValue.dflt
    IsCurrent := 2.52e-9 }

/-- `WDFDiodeClipperJUCE::prepare(newSampleRate)`: stores `fs`, prepares the
capacitor (bilinear port resistance `1/(2·Fs·C)`, discretization state
reset), resets both smoothers to a 10 ms ramp at the new rate, and snaps
them to 500 Hz / 2 diodes. -/
noncomputable def WDFDiodeClipperJUCE.prepare (s : WDFDiodeClipperJUCE)
    (newSampleRate : ℝ) : WDFDiodeClipperJUCE :=
  { s with
    fs := newSampleRate
    C1R := 1 / (2 * newSampleRate * ClipperCval)
    C1z := 0
    cutoffSmooth :=
      ((s.cutoffSmooth.reset newSampleRate 0.01).setCurrentAndTargetValue 500)
    nDiodesSmooth :=
      ((s.nDiodesSmooth.reset newSampleRate 0.01).setCurrentAndTargetValue 2) }

/-- `WDFDiodeClipperJUCE::setParameters(cutoffHz, diodeIs, numSeriesDiodes,
forceNow)`: clamps the cutoff with `juce::jlimit(20.0f, 0.45f * fs, ·)`;
`forceNow` snaps both smoothers (`setCurrentAndTargetValue`), otherwise both
targets are set (`setTargetValue`); `IsCurrent` is stored in both cases. -/
noncomputable def WDFDiodeClipperJUCE.setParameters (s : WDFDiodeClipperJUCE)
    (cutoffHz diodeIs numSeriesDiodes : ℝ) (forceNow : Bool) :
    WDFDiodeClipperJUCE :=
  let c := jlimit 20 (0.45 * s.fs) cutoffHz
  if forceNow then
    { s with cutoffSmooth := s.cutoffSmooth.setCurrentAndTargetValue c
             nDiodesSmooth :=
               s.nDiodesSmooth.setCurrentAndTargetValue numSeriesDiodes
             IsCurrent := diodeIs }
  else
    { s with cutoffSmooth := s.cutoffSmooth.setTargetMultiplicative c
             nDiodesSmooth := s.nDiodesSmooth.setTargetLinear numSeriesDiodes
             IsCurrent := diodeIs }

/-- The parallel adaptor's reflected wave (conductance rule, spec 4.2):
`b0 = (G1·b1 + G2·b2) / (G1 + G2)` with `G1 = 1/C1R`, `G2 = 1/VsR`,
`b1` the capacitor's reflected wave (its stored state) and `b2` the
resistive source's reflected wave (its set voltage). -/
noncomputable def WDFDiodeClipperJUCE.parReflected (s : WDFDiodeClipperJUCE) : ℝ :=
  ((1 / s.C1R) * s.C1z + (1 / s.VsR) * s.VsV) / (1 / s.C1R + 1 / s.VsR)

/-- The parallel adaptor's adapted port resistance `1 / (G1 + G2)`. -/
noncomputable def WDFDiodeClipperJUCE.parPortR (s : WDFDiodeClipperJUCE) : ℝ :=
  1 / (1 / s.C1R + 1 / s.VsR)

/-- `processSample` step: `if (cutoffSmooth.isSmoothing())
Vs.setResistanceValue(R_from_fc(cutoffSmooth.getNextValue()));`. -/
noncomputable def WDFDiodeClipperJUCE.smoothCutoffStep (s : WDFDiodeClipperJUCE) :
    WDFDiodeClipperJUCE :=
  if s.cutoffSmooth.isSmoothing then
    let r := s.cutoffSmooth.getNextMultiplicative
    { s with cutoffSmooth := r.2
             VsR := R_from_fc r.1 }
  else s

/-- `processSample` step: `if (nDiodesSmooth.isSmoothing())
diodes.setDiodeParameters(IsCurrent, Vt, nDiodesSmooth.getNextValue());`. -/
noncomputable def WDFDiodeClipperJUCE.smoothDiodeStep (s : WDFDiodeClipperJUCE) :
    WDFDiodeClipperJUCE :=
  if s.nDiodesSmooth.isSmoothing then
    let r := s.nDiodesSmooth.getNextLinear
    { s with nDiodesSmooth := r.2
             diodeIsP := s.IsCurrent
             diodeVtP := ClipperVt
             diodeN := r.1 }
  else s

/-- `processSample` step: `Vs.setVoltage(x);`. -/
def WDFDiodeClipperJUCE.setVoltageStep (s : WDFDiodeClipperJUCE) (x : ℝ) :
    WDFDiodeClipperJUCE :=
  { s with VsV := x }

/-- `processSample` step: `diodes.incident(par.reflected());` — the parallel
adaptor gathers its children's reflected waves (the capacitor caches its
`b`), and the diode pair stores the incident wave and its own reflected
wave `diodeWave(Is, Vt, N, Rport, a)`. -/
noncomputable def WDFDiodeClipperJUCE.diodeIncidentStep
    (diodeWave : ℝ → ℝ → ℝ → ℝ → ℝ → ℝ) (s : WDFDiodeClipperJUCE) :
    WDFDiodeClipperJUCE :=
  let bPar := s.parReflected
  { s with C1b := s.C1z
           diodeA := bPar
           diodeB := diodeWave s.diodeIsP s.diodeVtP s.diodeN s.parPortR bPar }

/-- `processSample` step: `float y = wdft::voltage<float>(C1);` — the port
voltage of the capacitor, `(a + b) / 2` from its most recent waves. -/
noncomputable def WDFDiodeClipperJUCE.capVoltage (s : WDFDiodeClipperJUCE) : ℝ :=
  (s.C1a + s.C1b) / 2

/-- `processSample` step: `par.incident(diodes.reflected());` — the adaptor
distributes the incident wave to its children so that every port sees the
common port voltage: child incident `aᵢ = a + b0 - bᵢ`; the capacitor
absorbs its incident wave into the discretization state. -/
noncomputable def WDFDiodeClipperJUCE.parIncidentStep (s : WDFDiodeClipperJUCE) :
    WDFDiodeClipperJUCE :=
  let a1 := s.diodeB + s.parReflected - s.C1z
  let a2 := s.diodeB + s.parReflected - s.VsV
  { s with C1a := a1
           C1z := a1
           VsA := a2 }

/-- `WDFDiodeClipperJUCE::processSample(x)` (lines 47-64 of
`WDFDiodeClipper.h`): smooth-and-push cutoff if ramping, smooth-and-push
diode count if ramping, drive the source, `diodes.incident(par.reflected())`,
read the capacitor voltage as `y`, `par.incident(diodes.reflected())`,
return `y`.  `diodeWave` is the diode pair's closed-form reflected-wave
law (external, spec sections 4.3 and 9). -/
noncomputable def WDFDiodeClipperJUCE.processSample
    (diodeWave : ℝ → ℝ → ℝ → ℝ → ℝ → ℝ) (s : WDFDiodeClipperJUCE) (x : ℝ) :
    ℝ × WDFDiodeClipperJUCE :=
  let s1 :=
    if s.cutoffSmooth.isSmoothing then
      let r := s.cutoffSmooth.getNextMultiplicative
      { s with cutoffSmooth := r.2
               VsR := R_from_fc r.1 }
    else s
  let s2 :=
    if s1.nDiodesSmooth.isSmoothing then
      let r := s1.nDiodesSmooth.getNextLinear
      { s1 with nDiodesSmooth := r.2
                diodeIsP := s1.IsCurrent
                diodeVtP := ClipperVt
                diodeN := r.1 }
    else s1
  let s3 := { s2 with VsV := x }
  let bPar := s3.parReflected
  let s4 := { s3 with C1b := s3.C1z
                      diodeA := bPar
                      diodeB := diodeWave s3.diodeIsP s3.diodeVtP s3.diodeN
                                  s3.parPortR bPar }
  let y := (s4.C1a + s4.C1b) / 2
  let a1 := s4.diodeB + s4.parReflected - s4.C1z
  let a2 := s4.diodeB + s4.parReflected - s4.VsV
  let s5 := { s4 with C1a := a1
                      C1z := a1
                      VsA := a2 }
  (y, s5)

/-! ## Helper lemmas about the clamp helpers -/

lemma jlimit_eq_of_le {lo hi v : ℝ} (h1 : lo ≤ v) (h2 : v ≤ hi) :
    jlimit lo hi v = v := by
  unfold jlimit
  rw [if_neg (not_lt.mpr h1), if_neg (not_lt.mpr h2)]

lemma jlimit_mem {lo hi : ℝ} (v : ℝ) (h : lo ≤ hi) :
    lo ≤ jlimit lo hi v ∧ jlimit lo hi v ≤ hi := by
  unfold jlimit
  split_ifs with h1 h2 <;> constructor <;> linarith

lemma jlimit_idem {lo hi : ℝ} (v : ℝ) (h : lo ≤ hi) :
    jlimit lo hi (jlimit lo hi v) = jlimit lo hi v := by
  obtain ⟨h1, h2⟩ := @jlimit_mem lo hi v h
  exact jlimit_eq_of_le h1 h2

lemma jmax_eq_of_le {a b : ℝ} (h : a ≤ b) : jmax a b = b := by
  unfold jmax
  split_ifs with h1
  · rfl
  · linarith

/-! ## Claims about the factory -/

/-- C1 (counterexample): the filter returned by
`create(Type::BandPass, Order::First)` does NOT report `Order::First`:
`WDFRCBandPass1st::getOrder()` returns `Order::Second`. -/
theorem C1_create_bandpass_first_order_counterexample :
    ¬ ((WDFilter.create TypeBandPass OrderFirst).kind.getOrderCode
        = OrderFirst) := by
  decide

/-- C1 (amended): for every supported `(type, order)` pair the created
filter reports its `type` back through `getType()`, and reports its `order`
back through `getOrder()` for every pair except `(BandPass, First)`, whose
filter (`WDFRCBandPass1st`) reports `Order::Second`. -/
theorem C1_create_reports_identity (t o : Int)
    (ht : t = TypeLowPass ∨ t = TypeHighPass ∨ t = TypeBandPass)
    (ho : o = OrderFirst ∨ o = OrderSecond) :
    (WDFilter.create t o).kind.getTypeCode = t ∧
    (¬ (t = TypeBandPass ∧ o = OrderFirst) →
       (WDFilter.create t o).kind.getOrderCode = o) ∧
    (t = TypeBandPass ∧ o = OrderFirst →
       (WDFilter.create t o).kind.getOrderCode = OrderSecond) := by
  rcases ht with h | h | h <;> rcases ho with h2 | h2 <;> subst h <;> subst h2 <;>
    refine ⟨by decide, fun hn => ?_, fun hy => ?_⟩ <;>
    first
      | decide
      | (exact absurd ⟨rfl, rfl⟩ hn)
      | (exact absurd hy.1 (by decide))

/-- C1 (witness): the amended statement at `(LowPass, First)`. -/
theorem C1_create_reports_identity_witness :
    (WDFilter.create TypeLowPass OrderFirst).kind.getTypeCode = TypeLowPass ∧
    (¬ (TypeLowPass = TypeBandPass ∧ OrderFirst = OrderFirst) →
       (WDFilter.create TypeLowPass OrderFirst).kind.getOrderCode
         = OrderFirst) ∧
    (TypeLowPass = TypeBandPass ∧ OrderFirst = OrderFirst →
       (WDFilter.create TypeLowPass OrderFirst).kind.getOrderCode
         = OrderSecond) :=
  C1_create_reports_identity TypeLowPass OrderFirst (Or.inl rfl) (Or.inl rfl)

/-- C4 (counterexample): the unsupported combination
`(Type::HighPass, order = 7)` does not fall back to `WDFRCLowPass` — the
`default:` of the inner switch returns `WDFRCHighPass`. -/
theorem C4_fallback_counterexample :
    ¬ ((WDFilter.create TypeHighPass 7).kind = FilterKind.lowPass1) := by
  decide

/-- C4 (amended): for every unsupported `(type, order)` combination,
`WDFilter::create` flags the condition via an assertion (`jassertfalse`) and
falls back to the FIRST-ORDER FILTER OF THE REQUESTED TYPE when the type
itself is a handled enum value (`WDFRCLowPass`, `WDFRCHighPass`,
`WDFRCBandPass1st` respectively), and to `WDFRCLowPass` only when the type
is itself out of range. -/
theorem C4_create_fallback (t o : Int)
    (h : ¬ ((t = TypeLowPass ∨ t = TypeHighPass ∨ t = TypeBandPass) ∧
            (o = OrderFirst ∨ o = OrderSecond))) :
    (WDFilter.create t o).assertionFired = true ∧
    (WDFilter.create t o).kind =
      (if t = TypeLowPass then FilterKind.lowPass1
       else if t = TypeHighPass then FilterKind.highPass1
       else if t = TypeBandPass then FilterKind.bandPass1
       else FilterKind.lowPass1) := by
  unfold WDFilter.create
  by_cases ht0 : t = TypeLowPass
  · have ho : ¬ (o = OrderFirst) ∧ ¬ (o = OrderSecond) := by
      constructor <;> intro hx <;> exact h ⟨Or.inl ht0, by simp [hx]⟩
    simp [ht0, ho.1, ho.2]
  · by_cases ht1 : t = TypeHighPass
    · have ho : ¬ (o = OrderFirst) ∧ ¬ (o = OrderSecond) := by
        constructor <;> intro hx <;> exact h ⟨Or.inr (Or.inl ht1), by simp [hx]⟩
      simp [ht0, ht1, ho.1, ho.2]
      decide
    · by_cases ht2 : t = TypeBandPass
      · have ho : ¬ (o = OrderFirst) ∧ ¬ (o = OrderSecond) := by
          constructor <;> intro hx <;>
            exact h ⟨Or.inr (Or.inr ht2), by simp [hx]⟩
        simp [ht0, ht1, ht2, ho.1, ho.2]
        decide
      · simp [ht0, ht1, ht2]

/-- C4 (witness): the amended statement at `(HighPass, 7)`. -/
theorem C4_create_fallback_witness :
    (WDFilter.create TypeHighPass 7).assertionFired = true ∧
    (WDFilter.create TypeHighPass 7).kind =
      (if (TypeHighPass : Int) = TypeLowPass then FilterKind.lowPass1
       else if (TypeHighPass : Int) = TypeHighPass then FilterKind.highPass1
       else if (TypeHighPass : Int) = TypeBandPass then FilterKind.bandPass1
       else FilterKind.lowPass1) :=
  C4_create_fallback TypeHighPass 7 (by decide)

/-! ## Claims about cutoff clamping and prepare -/

/-- C10: for all six filter classes, before any `prepare` call the clamp in
`setCutoff` is derived from the default member initializer
(`sampleRate{44100.0}` / `fs{44100.0}`), so the upper bound is
`0.45 · 44100 = 19845` Hz; in general the clamp range is always
`[20, 0.45 · sampleRate]` for the most recently stored sample rate, and
`prepare` is what stores it. -/
theorem C10_default_samplerate_clamp :
    WDFRCLowPass.init.sampleRate = 44100 ∧
    WDFRCHighPass.init.sampleRate = 44100 ∧
    WDFRC2LowPassCascade.init.fs = 44100 ∧
    WDFRC2HighPassCascade.init.fs = 44100 ∧
    WDFRCBandPass1st.init.fs = 44100 ∧
    WDFRCBandPass2nd.init.fs = 44100 ∧
    (∀ fc, (WDFRCLowPass.init.setCutoff fc).getCutoff = jlimit 20 19845 fc) ∧
    (∀ fc, (WDFRCHighPass.init.setCutoff fc).getCutoff = jlimit 20 19845 fc) ∧
    (∀ fc, (WDFRC2LowPassCascade.init.setCutoff fc).getCutoff
             = jlimit 20 19845 fc) ∧
    (∀ fc, (WDFRC2HighPassCascade.init.setCutoff fc).getCutoff
             = jlimit 20 19845 fc) ∧
    (∀ fc, (WDFRCBandPass1st.init.setCutoff fc).getCutoff
             = jlimit 20 19845 fc) ∧
    (∀ fc, (WDFRCBandPass2nd.init.setCutoff fc).getCutoff
             = jlimit 20 19845 fc) ∧
    (∀ (s : WDFRCLowPass) fc,
       (s.setCutoff fc).getCutoff = jlimit 20 (s.sampleRate * 0.45) fc) ∧
    (∀ (s : WDFRCHighPass) fc,
       (s.setCutoff fc).getCutoff = jlimit 20 (s.sampleRate * 0.45) fc) ∧
    (∀ (s : WDFRC2LowPassCascade) fc,
       (s.setCutoff fc).getCutoff = jlimit 20 (s.fs * 0.45) fc) ∧
    (∀ (s : WDFRC2HighPassCascade) fc,
       (s.setCutoff fc).getCutoff = jlimit 20 (s.fs * 0.45) fc) ∧
    (∀ (s : WDFRCBandPass1st) fc,
       (s.setCutoff fc).getCutoff = jlimit 20 (s.fs * 0.45) fc) ∧
    (∀ (s : WDFRCBandPass2nd) fc,
       (s.setCutoff fc).getCutoff = jlimit 20 (s.fs * 0.45) fc) ∧
    (∀ (s : WDFRCLowPass) (r fc : ℝ),
       (s.prepare r).sampleRate = r ∧
       ((s.prepare r).setCutoff fc).getCutoff = jlimit 20 (r * 0.45) fc) ∧
    (∀ (s : WDFRCHighPass) (r fc : ℝ),
       (s.prepare r).sampleRate = r ∧
       ((s.prepare r).setCutoff fc).getCutoff = jlimit 20 (r * 0.45) fc) ∧
    (∀ (s : WDFRC2LowPassCascade) (r fc : ℝ),
       (s.prepare r).fs = r ∧
       ((s.prepare r).setCutoff fc).getCutoff = jlimit 20 (r * 0.45) fc) ∧
    (∀ (s : WDFRC2HighPassCascade) (r fc : ℝ),
       (s.prepare r).fs = r ∧
       ((s.prepare r).setCutoff fc).getCutoff = jlimit 20 (r * 0.45) fc) ∧
    (∀ (s : WDFRCBandPass1st) (r fc : ℝ),
       (s.prepare r).fs = r ∧
       ((s.prepare r).setCutoff fc).getCutoff = jlimit 20 (r * 0.45) fc) ∧
    (∀ (s : WDFRCBandPass2nd) (r fc : ℝ),
       (s.prepare r).fs = r ∧
       ((s.prepare r).setCutoff fc).getCutoff = jlimit 20 (r * 0.45) fc) := by
  refine ⟨rfl, rfl, rfl, rfl, rfl, rfl,
          fun fc => ?_, fun fc => ?_, fun fc => ?_, fun fc => ?_,
          fun fc => ?_, fun fc => ?_,
          fun s fc => rfl, fun s fc => rfl, fun s fc => rfl, fun s fc => rfl,
          fun s fc => rfl, fun s fc => rfl,
          fun s r fc => ⟨rfl, rfl⟩, fun s r fc => ⟨rfl, rfl⟩,
          fun s r fc => ⟨rfl, rfl⟩, fun s r fc => ⟨rfl, rfl⟩,
          fun s r fc => ⟨rfl, rfl⟩, fun s r fc => ⟨rfl, rfl⟩⟩ <;>
    · show jlimit 20 (44100 * 0.45) fc = jlimit 20 19845 fc
      norm_num

/-- C8: evaluation at the failing input — `prepare` performs no validation:
a sample rate of 0 (or a negative one) is stored as-is, leaving the filter
configured with the non-positive rate (the claim and spec section 7(d)
require rejection with an explicit error). -/
theorem C8_prepare_accepts_nonpositive_rate :
    (WDFRCLowPass.init.prepare 0).sampleRate = 0 ∧
    (WDFRCHighPass.init.prepare (-48000)).sampleRate = -48000 ∧
    (WDFDiodeClipperJUCE.init.prepare 0).fs = 0 :=
  ⟨rfl, rfl, rfl⟩

/-- C2: for filters whose stored sample rate is 48000 (e.g. after
`prepare(48000)`), `setCutoff(-10)` yields an effective cutoff of exactly
20 Hz — both through `getCutoff()` and as the value fed into the component
resistance `R = 1/(2π·fc·C)` — and `setCutoff(30000)` yields exactly
`0.45 · 48000 = 21600` Hz; in general `setCutoff` clamps its argument to
`[20, 0.45 · Fs]`. -/
theorem C2_setCutoff_clamp_at_48k
    (lp : WDFRCLowPass) (hp : WDFRCHighPass)
    (lp2 : WDFRC2LowPassCascade) (hp2 : WDFRC2HighPassCascade)
    (bp1 : WDFRCBandPass1st) (bp2 : WDFRCBandPass2nd)
    (hlp : lp.sampleRate = 48000) (hhp : hp.sampleRate = 48000)
    (hlp2 : lp2.fs = 48000) (hhp2 : hp2.fs = 48000)
    (hbp1 : bp1.fs = 48000) (hbp2 : bp2.fs = 48000) :
    ((lp.setCutoff (-10)).getCutoff = 20 ∧
     (lp.setCutoff (-10)).r1R = WDFRCLowPass.Rof 20 ∧
     (lp.setCutoff 30000).getCutoff = 21600 ∧
     (lp.setCutoff 30000).r1R = WDFRCLowPass.Rof 21600) ∧
    ((hp.setCutoff (-10)).getCutoff = 20 ∧
     (hp.setCutoff (-10)).r1R = WDFRCHighPass.Rof 20 ∧
     (hp.setCutoff 30000).getCutoff = 21600 ∧
     (hp.setCutoff 30000).r1R = WDFRCHighPass.Rof 21600) ∧
    ((lp2.setCutoff (-10)).getCutoff = 20 ∧
     (lp2.setCutoff 30000).getCutoff = 21600) ∧
    ((hp2.setCutoff (-10)).getCutoff = 20 ∧
     (hp2.setCutoff 30000).getCutoff = 21600) ∧
    ((bp1.setCutoff (-10)).getCutoff = 20 ∧
     (bp1.setCutoff 30000).getCutoff = 21600) ∧
    ((bp2.setCutoff (-10)).getCutoff = 20 ∧
     (bp2.setCutoff 30000).getCutoff = 21600) ∧
    (∀ fc, (lp.setCutoff fc).getCutoff = jlimit 20 21600 fc ∧
           20 ≤ (lp.setCutoff fc).getCutoff ∧
           (lp.setCutoff fc).getCutoff ≤ 21600) ∧
    (∀ fc, (hp.setCutoff fc).getCutoff = jlimit 20 21600 fc ∧
           20 ≤ (hp.setCutoff fc).getCutoff ∧
           (hp.setCutoff fc).getCutoff ≤ 21600) := by
  have h16 : (20 : ℝ) ≤ 21600 := by norm_num
  refine ⟨⟨?_, ?_, ?_, ?_⟩, ⟨?_, ?_, ?_, ?_⟩, ⟨?_, ?_⟩, ⟨?_, ?_⟩, ⟨?_, ?_⟩,
          ⟨?_, ?_⟩, fun fc => ⟨?_, ?_, ?_⟩, fun fc => ⟨?_, ?_, ?_⟩⟩ <;>
    simp only [WDFRCLowPass.setCutoff, WDFRCLowPass.getCutoff,
               WDFRCHighPass.setCutoff, WDFRCHighPass.getCutoff,
               WDFRC2LowPassCascade.setCutoff, WDFRC2LowPassCascade.getCutoff,
               WDFRC2HighPassCascade.setCutoff, WDFRC2HighPassCascade.getCutoff,
               WDFRCBandPass1st.setCutoff, WDFRCBandPass1st.updateCutoffs,
               WDFRCBandPass1st.getCutoff,
               WDFRCBandPass2nd.setCutoff, WDFRCBandPass2nd.updateCutoffs,
               WDFRCBandPass2nd.getCutoff,
               hlp, hhp, hlp2, hhp2, hbp1, hbp2] <;>
    · norm_num [jlimit]
      try (split_ifs <;> linarith)

/-- C5: `WDFRC2HighPassCascade::setCutoff(fc)` stores the clamped `fc` as
its own cutoff (returned by `getCutoff()`), and pushes the clamped `fc`
divided by exactly the correction factor `_k = 1.553` into each of the two
first-order stages, which then apply their own `[20, 0.45·Fs]` clamp. -/
theorem C5_hp_cascade_correction (s : WDFRC2HighPassCascade) (fc : ℝ) :
    hpCascadeK = 1.553 ∧
    (s.setCutoff fc).getCutoff = jlimit 20 (s.fs * 0.45) fc ∧
    (s.setCutoff fc).stage1.cutoff =
      jlimit 20 (s.stage1.sampleRate * 0.45)
        (jlimit 20 (s.fs * 0.45) fc / hpCascadeK) ∧
    (s.setCutoff fc).stage2.cutoff =
      jlimit 20 (s.stage2.sampleRate * 0.45)
        (jlimit 20 (s.fs * 0.45) fc / hpCascadeK) := by
  exact ⟨rfl, rfl, rfl, rfl⟩

/-- C9: `prepare` is idempotent for every filter class and the diode
clipper: calling it twice in a row with the same sample rate and no
`processSample` in between leaves the entire state (sample rate, cutoff,
component resistances, capacitor discretization state, smoothing state)
identical to calling it once. -/
theorem C9_prepare_idempotent :
    (∀ (s : WDFRCLowPass) (f : ℝ), (s.prepare f).prepare f = s.prepare f) ∧
    (∀ (s : WDFRCHighPass) (f : ℝ), (s.prepare f).prepare f = s.prepare f) ∧
    (∀ (s : WDFRC2LowPassCascade) (f : ℝ),
       (s.prepare f).prepare f = s.prepare f) ∧
    (∀ (s : WDFRC2HighPassCascade) (f : ℝ),
       (s.prepare f).prepare f = s.prepare f) ∧
    (∀ (s : WDFRCBandPass1st) (f : ℝ),
       (s.prepare f).prepare f = s.prepare f) ∧
    (∀ (s : WDFRCBandPass2nd) (f : ℝ),
       (s.prepare f).prepare f = s.prepare f) ∧
    (∀ (s : WDFDiodeClipperJUCE) (f : ℝ),
       (s.prepare f).prepare f = s.prepare f) :=
  ⟨fun _ _ => rfl, fun _ _ => rfl, fun _ _ => rfl, fun _ _ => rfl,
   fun _ _ => rfl, fun _ _ => rfl, fun _ _ => rfl⟩

/-- C2 (witness): the clamp boundaries evaluated on freshly prepared
first-order filters. -/
theorem C2_setCutoff_clamp_at_48k_witness :
    ((WDFRCLowPass.init.prepare 48000).setCutoff (-10)).getCutoff = 20 ∧
    ((WDFRCHighPass.init.prepare 48000).setCutoff 30000).getCutoff = 21600 :=
  ⟨(C2_setCutoff_clamp_at_48k (WDFRCLowPass.init.prepare 48000)
      (WDFRCHighPass.init.prepare 48000)
      (WDFRC2LowPassCascade.init.prepare 48000)
      (WDFRC2HighPassCascade.init.prepare 48000)
      (WDFRCBandPass1st.init.prepare 48000)
      (WDFRCBandPass2nd.init.prepare 48000)
      rfl rfl rfl rfl rfl rfl).1.1,
   (C2_setCutoff_clamp_at_48k (WDFRCLowPass.init.prepare 48000)
      (WDFRCHighPass.init.prepare 48000)
      (WDFRC2LowPassCascade.init.prepare 48000)
      (WDFRC2HighPassCascade.init.prepare 48000)
      (WDFRCBandPass1st.init.prepare 48000)
      (WDFRCBandPass2nd.init.prepare 48000)
      rfl rfl rfl rfl rfl rfl).2.1.2.2.1⟩

/-! ## C3: band-pass stage cutoffs -/

lemma sqrt_two_ge_one : 1 ≤ Real.sqrt 2 := by
  rw [show (1:ℝ) = Real.sqrt 1 from (Real.sqrt_one).symm]
  exact Real.sqrt_le_sqrt (by norm_num)

lemma sqrt_two_le_two : Real.sqrt 2 ≤ 2 := by
  have h4 : Real.sqrt 4 = 2 := by
    rw [show (4:ℝ) = 2 ^ 2 by norm_num]
    exact Real.sqrt_sq (by norm_num)
  have h := Real.sqrt_le_sqrt (show (2:ℝ) ≤ 4 by norm_num)
  linarith

/-- Structural form of `setCutoff(center)` then `setBandwidth(bw)` on the
first-order band-pass: the last `updateCutoffs()` run determines the stage
cutoffs from the clamped center, the floored bandwidth and each stage's own
clamp. -/
lemma BP1_stage_cutoffs_eq (s : WDFRCBandPass1st) (center bw : ℝ) :
    ((s.setCutoff center).setBandwidth bw).stage1.cutoff
      = jlimit 20 (s.stage1.sampleRate * 0.45)
          (jlimit 20 (s.fs * 0.45)
            (jlimit 20 (s.fs * 0.45) center / 2 ^ (jmax 0.1 bw / 2))) ∧
    ((s.setCutoff center).setBandwidth bw).stage2.cutoff
      = jlimit 20 (s.stage2.sampleRate * 0.45)
          (jlimit 20 (s.fs * 0.45)
            (jlimit 20 (s.fs * 0.45) center * 2 ^ (jmax 0.1 bw / 2))) :=
  ⟨rfl, rfl⟩

/-- C3: on a `WDFRCBandPass1st` prepared at 48000 Hz, after
`setCutoff(center)` (center within the valid range) and `setBandwidth(bw)`
(`bw ≥ 0.1`), the high-pass stage's cutoff is `center / 2^(bw/2)` and the
low-pass stage's cutoff is `center · 2^(bw/2)`, each independently clamped
to `[20, 0.45·Fs] = [20, 21600]` before being pushed to the sub-stage; for
center = 1000 Hz and bw = 1 octave the stage cutoffs are exactly
`1000/√2` and `1000·√2`. -/
theorem C3_bandpass_stage_cutoffs (s : WDFRCBandPass1st) (center bw : ℝ)
    (hfs : s.fs = 48000) (h1 : s.stage1.sampleRate = 48000)
    (h2 : s.stage2.sampleRate = 48000)
    (hc1 : 20 ≤ center) (hc2 : center ≤ 21600) (hbw : 0.1 ≤ bw) :
    ((s.setCutoff center).setBandwidth bw).stage1.cutoff
        = jlimit 20 21600 (center / 2 ^ (bw / 2)) ∧
    ((s.setCutoff center).setBandwidth bw).stage2.cutoff
        = jlimit 20 21600 (center * 2 ^ (bw / 2)) ∧
    ((s.setCutoff 1000).setBandwidth 1).stage1.cutoff = 1000 / Real.sqrt 2 ∧
    ((s.setCutoff 1000).setBandwidth 1).stage2.cutoff = 1000 * Real.sqrt 2 := by
  have h2021 : (20 : ℝ) ≤ 21600 := by norm_num
  have hq : (48000 : ℝ) * 0.45 = 21600 := by norm_num
  obtain ⟨e1, e2⟩ := BP1_stage_cutoffs_eq s center bw
  obtain ⟨f1, f2⟩ := BP1_stage_cutoffs_eq s 1000 1
  rw [hfs, h1, hq] at e1
  rw [hfs, h2, hq] at e2
  rw [hfs, h1, hq] at f1
  rw [hfs, h2, hq] at f2
  have hcen : jlimit 20 21600 center = center := jlimit_eq_of_le hc1 hc2
  have hbw2 : jmax 0.1 bw = bw := jmax_eq_of_le hbw
  have hsq : (2 : ℝ) ^ (jmax 0.1 1 / 2) = Real.sqrt 2 := by
    rw [jmax_eq_of_le (by norm_num : (0.1 : ℝ) ≤ 1), Real.sqrt_eq_rpow]
  have hs1 : (0 : ℝ) < Real.sqrt 2 := Real.sqrt_pos.mpr (by norm_num)
  have hsle := sqrt_two_le_two
  have hsge := sqrt_two_ge_one
  have hkc : jlimit 20 21600 (1000 : ℝ) = 1000 := jlimit_eq_of_le
    (by norm_num) (by norm_num)
  have hdivmem : (20 : ℝ) ≤ 1000 / Real.sqrt 2 ∧
      (1000 : ℝ) / Real.sqrt 2 ≤ 21600 := by
    constructor
    · rw [le_div_iff₀ hs1]; nlinarith
    · rw [div_le_iff₀ hs1]; nlinarith
  have hmulmem : (20 : ℝ) ≤ 1000 * Real.sqrt 2 ∧
      (1000 : ℝ) * Real.sqrt 2 ≤ 21600 := by
    constructor <;> nlinarith
  refine ⟨?_, ?_, ?_, ?_⟩
  · rw [e1, hcen, hbw2, jlimit_idem _ h2021]
  · rw [e2, hcen, hbw2, jlimit_idem _ h2021]
  · rw [f1, hkc, hsq, jlimit_eq_of_le hdivmem.1 hdivmem.2,
        jlimit_eq_of_le hdivmem.1 hdivmem.2]
  · rw [f2, hkc, hsq, jlimit_eq_of_le hmulmem.1 hmulmem.2,
        jlimit_eq_of_le hmulmem.1 hmulmem.2]

/-- C3 (witness): the concrete stage cutoffs on a freshly prepared
band-pass at center = 1000 Hz, bandwidth = 1 octave. -/
theorem C3_bandpass_stage_cutoffs_witness :
    (((WDFRCBandPass1st.init.prepare 48000).setCutoff 1000).setBandwidth
        1).stage1.cutoff = 1000 / Real.sqrt 2 ∧
    (((WDFRCBandPass1st.init.prepare 48000).setCutoff 1000).setBandwidth
        1).stage2.cutoff = 1000 * Real.sqrt 2 :=
  ⟨(C3_bandpass_stage_cutoffs (WDFRCBandPass1st.init.prepare 48000) 1000 1
      rfl rfl rfl (by norm_num) (by norm_num) (by norm_num)).2.2.1,
   (C3_bandpass_stage_cutoffs (WDFRCBandPass1st.init.prepare 48000) 1000 1
      rfl rfl rfl (by norm_num) (by norm_num) (by norm_num)).2.2.2⟩

/-! ## C7: parameter snapping vs. ramping on the diode clipper -/

lemma setTargetMultiplicative_fields (sm : SmoothedValue) (v : ℝ)
    (h : 0 < sm.stepsToTarget) :
    (sm.setTargetMultiplicative v).current = sm.current ∧
    (sm.setTargetMultiplicative v).target = v ∧
    (v ≠ sm.target →
       (sm.setTargetMultiplicative v).countdown = sm.stepsToTarget) := by
  unfold SmoothedValue.setTargetMultiplicative
  by_cases hv : v = sm.target
  · rw [if_pos hv]
    exact ⟨rfl, hv.symm, fun hne => absurd hv hne⟩
  · rw [if_neg hv, if_neg (not_le.mpr h)]
    exact ⟨rfl, rfl, fun _ => rfl⟩

lemma setTargetLinear_fields (sm : SmoothedValue) (v : ℝ)
    (h : 0 < sm.stepsToTarget) :
    (sm.setTargetLinear v).current = sm.current ∧
    (sm.setTargetLinear v).target = v ∧
    (v ≠ sm.target → (sm.setTargetLinear v).countdown = sm.stepsToTarget) := by
  unfold SmoothedValue.setTargetLinear
  by_cases hv : v = sm.target
  · rw [if_pos hv]
    exact ⟨rfl, hv.symm, fun hne => absurd hv hne⟩
  · rw [if_neg hv, if_neg (not_le.mpr h)]
    exact ⟨rfl, rfl, fun _ => rfl⟩

/-- C7: `setParameters(cutoffHz, Is, N, forceNow)` on the diode clipper.
With `forceNow = true` both smoothed parameters take effect immediately:
current and target of the cutoff smoother are set to the clamped cutoff,
current and target of the diode-count smoother to `N`, with no ramp
pending.  With `forceNow = false` (given a configured, positive ramp
length) the currently in-effect values — the smoothers' current values and
the WDF elements' resistance and diode parameters — are unchanged, the
targets are set to the clamped cutoff and to `N`, and any actual target
change starts a full ramp of `stepsToTarget` samples, where `prepare` fixed
`stepsToTarget = ⌊0.01 · Fs⌋`, i.e. a 10 ms window.  `Is` is staged into
`IsCurrent` in both cases. -/
theorem C7_setParameters_snap_or_ramp (s : WDFDiodeClipperJUCE)
    (cutoffHz diodeIs numSeriesDiodes : ℝ)
    (hcd : 0 < s.cutoffSmooth.stepsToTarget)
    (hnd : 0 < s.nDiodesSmooth.stepsToTarget) :
    ((s.setParameters cutoffHz diodeIs numSeriesDiodes true).cutoffSmooth.current
        = jlimit 20 (0.45 * s.fs) cutoffHz ∧
     (s.setParameters cutoffHz diodeIs numSeriesDiodes true).cutoffSmooth.target
        = jlimit 20 (0.45 * s.fs) cutoffHz ∧
     (s.setParameters cutoffHz diodeIs numSeriesDiodes
        true).nDiodesSmooth.current = numSeriesDiodes ∧
     (s.setParameters cutoffHz diodeIs numSeriesDiodes
        true).nDiodesSmooth.target = numSeriesDiodes ∧
     (s.setParameters cutoffHz diodeIs numSeriesDiodes
        true).cutoffSmooth.countdown = 0 ∧
     (s.setParameters cutoffHz diodeIs numSeriesDiodes
        true).nDiodesSmooth.countdown = 0 ∧
     (s.setParameters cutoffHz diodeIs numSeriesDiodes true).IsCurrent
        = diodeIs) ∧
    ((s.setParameters cutoffHz diodeIs numSeriesDiodes
        false).cutoffSmooth.current = s.cutoffSmooth.current ∧
     (s.setParameters cutoffHz diodeIs numSeriesDiodes
        false).nDiodesSmooth.current = s.nDiodesSmooth.current ∧
     (s.setParameters cutoffHz diodeIs numSeriesDiodes false).VsR = s.VsR ∧
     (s.setParameters cutoffHz diodeIs numSeriesDiodes false).diodeIsP
        = s.diodeIsP ∧
     (s.setParameters cutoffHz diodeIs numSeriesDiodes false).diodeN
        = s.diodeN ∧
     (s.setParameters cutoffHz diodeIs numSeriesDiodes
        false).cutoffSmooth.target = jlimit 20 (0.45 * s.fs) cutoffHz ∧
     (s.setParameters cutoffHz diodeIs numSeriesDiodes
        false).nDiodesSmooth.target = numSeriesDiodes ∧
     (jlimit 20 (0.45 * s.fs) cutoffHz ≠ s.cutoffSmooth.target →
        (s.setParameters cutoffHz diodeIs numSeriesDiodes
           false).cutoffSmooth.countdown = s.cutoffSmooth.stepsToTarget) ∧
     (numSeriesDiodes ≠ s.nDiodesSmooth.target →
        (s.setParameters cutoffHz diodeIs numSeriesDiodes
           false).nDiodesSmooth.countdown = s.nDiodesSmooth.stepsToTarget) ∧
     (s.setParameters cutoffHz diodeIs numSeriesDiodes false).IsCurrent
        = diodeIs) ∧
    (∀ (s2 : WDFDiodeClipperJUCE) (f : ℝ),
       (s2.prepare f).cutoffSmooth.stepsToTarget = ⌊(0.01 : ℝ) * f⌋ ∧
       (s2.prepare f).nDiodesSmooth.stepsToTarget = ⌊(0.01 : ℝ) * f⌋) := by
  obtain ⟨m1, m2, m3⟩ := setTargetMultiplicative_fields s.cutoffSmooth
    (jlimit 20 (0.45 * s.fs) cutoffHz) hcd
  obtain ⟨l1, l2, l3⟩ := setTargetLinear_fields s.nDiodesSmooth
    numSeriesDiodes hnd
  refine ⟨⟨rfl, rfl, rfl, rfl, rfl, rfl, rfl⟩,
          ⟨?_, ?_, rfl, rfl, rfl, ?_, ?_, ?_, ?_, rfl⟩,
          fun s2 f => ⟨rfl, rfl⟩⟩
  · exact m1
  · exact l1
  · exact m2
  · exact l2
  · exact m3
  · exact l3

/-- C7 (witness): after `prepare(48000)` the ramp length is positive, and a
forced `setParameters` snaps the cutoff smoother's current value to the
clamped cutoff. -/
theorem C7_setParameters_snap_or_ramp_witness :
    0 < (WDFDiodeClipperJUCE.init.prepare 48000).cutoffSmooth.stepsToTarget ∧
    ((WDFDiodeClipperJUCE.init.prepare 48000).setParameters 1000 1e-9 3
        true).cutoffSmooth.current
      = jlimit 20 (0.45 * (WDFDiodeClipperJUCE.init.prepare 48000).fs) 1000 := by
  have hfl : ((WDFDiodeClipperJUCE.init.prepare
      48000).cutoffSmooth.stepsToTarget : ℤ) = 480 := by
    show ⌊(0.01 : ℝ) * 48000⌋ = 480
    rw [show (0.01 : ℝ) * 48000 = 480 by norm_num]
    exact_mod_cast @Int.floor_intCast ℝ _ _ 480
  have hpos : 0 < (WDFDiodeClipperJUCE.init.prepare
      48000).cutoffSmooth.stepsToTarget := by
    rw [hfl]; norm_num
  have hpos2 : 0 < (WDFDiodeClipperJUCE.init.prepare
      48000).nDiodesSmooth.stepsToTarget := hpos
  exact ⟨hpos, (C7_setParameters_snap_or_ramp
    (WDFDiodeClipperJUCE.init.prepare 48000) 1000 1e-9 3 hpos hpos2).1.1⟩

/-! ## C6: per-sample processing order of the diode clipper -/

/-- C6: `processSample(x)` is exactly the in-order composition: advance the
cutoff ramp (if active) and push the resistance, advance the diode-count
ramp (if active) and push the diode parameters, set the source voltage to
`x`, `diodes.incident(par.reflected())`, read the capacitor voltage as the
returned `y`, `par.incident(diodes.reflected())`; and when neither ramp is
in progress, the source resistance, the diode parameters and both smoothers
are left untouched.  Stated for every diode reflected-wave law `dw`. -/
theorem C6_processSample_step_order :
    (∀ (dw : ℝ → ℝ → ℝ → ℝ → ℝ → ℝ) (s : WDFDiodeClipperJUCE) (x : ℝ),
       WDFDiodeClipperJUCE.processSample dw s x =
         (((((s.smoothCutoffStep).smoothDiodeStep).setVoltageStep
              x).diodeIncidentStep dw).capVoltage,
          ((((s.smoothCutoffStep).smoothDiodeStep).setVoltageStep
              x).diodeIncidentStep dw).parIncidentStep)) ∧
    (∀ (dw : ℝ → ℝ → ℝ → ℝ → ℝ → ℝ) (s : WDFDiodeClipperJUCE) (x : ℝ),
       ¬ s.cutoffSmooth.isSmoothing → ¬ s.nDiodesSmooth.isSmoothing →
       ((WDFDiodeClipperJUCE.processSample dw s x).2.VsR = s.VsR ∧
        (WDFDiodeClipperJUCE.processSample dw s x).2.diodeIsP = s.diodeIsP ∧
        (WDFDiodeClipperJUCE.processSample dw s x).2.diodeVtP = s.diodeVtP ∧
        (WDFDiodeClipperJUCE.processSample dw s x).2.diodeN = s.diodeN ∧
        (WDFDiodeClipperJUCE.processSample dw s x).2.cutoffSmooth
          = s.cutoffSmooth ∧
        (WDFDiodeClipperJUCE.processSample dw s x).2.nDiodesSmooth
          = s.nDiodesSmooth)) := by
  refine ⟨fun dw s x => rfl, fun dw s x h1 h2 => ?_⟩
  simp only [WDFDiodeClipperJUCE.processSample, if_neg h1, if_neg h2,
             WDFDiodeClipperJUCE.setVoltageStep]
  exact ⟨trivial, trivial, trivial, trivial, trivial, trivial⟩

/-- C6 (witness): on the default-constructed clipper (no ramp in progress)
with an identity diode wave law, a processed sample leaves the source
resistance and the cutoff smoother untouched. -/
theorem C6_processSample_step_order_witness :
    ¬ WDFDiodeClipperJUCE.init.cutoffSmooth.isSmoothing ∧
    ¬ WDFDiodeClipperJUCE.init.nDiodesSmooth.isSmoothing ∧
    (WDFDiodeClipperJUCE.processSample (fun _ _ _ _ a => a)
        WDFDiodeClipperJUCE.init 1).2.VsR = WDFDiodeClipperJUCE.init.VsR ∧
    (WDFDiodeClipperJUCE.processSample (fun _ _ _ _ a => a)
        WDFDiodeClipperJUCE.init 1).2.cutoffSmooth
      = WDFDiodeClipperJUCE.init.cutoffSmooth := by
  have h1 : ¬ WDFDiodeClipperJUCE.init.cutoffSmooth.isSmoothing := by
    show ¬ ((0 : ℤ) < 0)
    norm_num
  have h2 : ¬ WDFDiodeClipperJUCE.init.nDiodesSmooth.isSmoothing := by
    show ¬ ((0 : ℤ) < 0)
    norm_num
  have h := (C6_processSample_step_order.2 (fun _ _ _ _ a => a)
    WDFDiodeClipperJUCE.init 1 h1 h2)
  exact ⟨h1, h2, h.1, h.2.2.2.2.1⟩
